import Mathlib

/-!
# SavvyFinance — verification of the budget-alert evaluator and aggregation queries

Shallow embedding of the server logic of the SavvyFinance repository:
the budget-alert evaluator `checkBudgetAlerts` and the transaction-creation
route (src/unnamed/part_000), and the storage layer's query and mutation
operations (src/unnamed/part_002), over the data model of src/shared/schema.ts.

Modelling conventions:
* Monetary amounts are decimal strings in the source (`decimal(12,2)`), parsed
  with `parseFloat` before arithmetic.  They are modelled as exact rationals
  (`ℚ`); the special values produced by JavaScript division by zero
  (`Infinity`, `NaN`) are modelled explicitly by the `JNum` type below, with
  IEEE comparison semantics (`NaN` compares false).
* Timestamps are modelled at second granularity as `ℤ` (seconds since the Unix
  epoch, in the server's local time).  The JavaScript `Date(year, monthIndex,
  day, h, m, s)` constructor — including its normalization of out-of-range
  month indices and day 0 meaning "last day of the previous month" — is
  modelled by `jsDateSec` via the standard civil-calendar conversion.
* The database is a record of lists of rows; drizzle queries become list
  filters and folds.  `ORDER BY date DESC` clauses on row-returning queries
  are not modelled: every property below is insensitive to row order, and the
  aggregations consume the rows through order-independent sums.
* Asynchronous calls are sequential within one request in the source; the
  embedding is direct state passing.  Storage failures are injected through a
  `Failures` record, and the source's `try/catch` becomes an `Except`
  computation whose error case returns the unchanged database (the failing
  write does not commit, and no earlier step of the evaluator writes).
-/

/-! ## Civil-calendar / JavaScript `Date` model -/

/-- Leap-year test of the proleptic Gregorian calendar. -/
def isLeap (y : ℤ) : Bool :=
  (y % 4 == 0 && y % 100 != 0) || y % 400 == 0

/-- Days since 1970-01-01 of the civil date (y, m, d), m ∈ [1,12]; the day
count is linear in `d`, so out-of-range `d` (e.g. 0) denotes the
correspondingly shifted day, exactly as JavaScript `Date` normalizes it. -/
def daysFromCivil (y m d : ℤ) : ℤ :=
  let y' := if m ≤ 2 then y - 1 else y
  let era := y'.fdiv 400
  let yoe := y' - era * 400
  let mp := if 2 < m then m - 3 else m + 9
  let doy := (153 * mp + 2).fdiv 5 + d - 1
  let doe := yoe * 365 + yoe.fdiv 4 - yoe.fdiv 100 + doy
  era * 146097 + doe - 719468

/-- Inverse of `daysFromCivil`: the civil date (y, m, d) of a day number. -/
def civilFromDays (z0 : ℤ) : ℤ × ℤ × ℤ :=
  let z := z0 + 719468
  let era := z.fdiv 146097
  let doe := z - era * 146097
  let yoe := (doe - doe.fdiv 1460 + doe.fdiv 36524 - doe.fdiv 146096).fdiv 365
  let y := yoe + era * 400
  let doy := doe - (365 * yoe + yoe.fdiv 4 - yoe.fdiv 100)
  let mp := (5 * doy + 2).fdiv 153
  let d := doy - (153 * mp + 2).fdiv 5 + 1
  let m := if mp < 10 then mp + 3 else mp - 9
  (if m ≤ 2 then y + 1 else y, m, d)

/-- Epoch seconds of `new Date(year, monthIndex, day, h, mi, s)`: month
indices outside [0,11] roll the year, day 0 is the last day of the previous
month, both exactly as in JavaScript. -/
def jsDateSec (year monthIndex day h mi s : ℤ) : ℤ :=
  let y := year + monthIndex.fdiv 12
  let m := monthIndex.emod 12 + 1
  daysFromCivil y m day * 86400 + h * 3600 + mi * 60 + s

/-- `new Date(t).getFullYear()` for an epoch-second timestamp. -/
def nowYear (now : ℤ) : ℤ := (civilFromDays (now.fdiv 86400)).1

/-- `new Date(t).getMonth() + 1` (1-based month) for an epoch-second timestamp. -/
def nowMonth (now : ℤ) : ℤ := (civilFromDays (now.fdiv 86400)).2.1

/-- `new Date(t).getDate()` (day of month) for an epoch-second timestamp. -/
def nowDay (now : ℤ) : ℤ := (civilFromDays (now.fdiv 86400)).2.2

/-- `d.setMonth(monthIndex)` on a date `now`: same day-of-month and time of
day, month index normalized by rollover. -/
def jsSetMonth (now monthIndex : ℤ) : ℤ :=
  jsDateSec (nowYear now) monthIndex (nowDay now) 0 0 (now.emod 86400)

/-- The month key `TO_CHAR(date, 'YYYY-MM')` of a timestamp, encoded as the
integer `year * 100 + month`; for four-digit years the numeric order of this
encoding coincides with the lexicographic order of the `YYYY-MM` strings. -/
def monthKeyOf (t : ℤ) : ℤ :=
  let c := civilFromDays (t.fdiv 86400)
  c.1 * 100 + c.2.1

/-- `new Date(year, month - 1, 1)` — start of the calendar month, as in
`checkBudgetAlerts` and `getSpendingByCategory`. -/
def monthStart (year month : ℤ) : ℤ := jsDateSec year (month - 1) 1 0 0 0

/-- `new Date(year, month, 0, 23, 59, 59)` — last second of the calendar
month, as in `checkBudgetAlerts` and `getSpendingByCategory`. -/
def monthEnd (year month : ℤ) : ℤ := jsDateSec year month 0 23 59 59

/-! ## JavaScript number model for the division in the evaluator -/

/-- A JavaScript number as it appears in the evaluator's percentage
computation: an exact rational, or one of the special values produced by
division by zero. -/
inductive JNum : Type where
  | fin (q : ℚ)
  | posInf
  | negInf
  | nan
deriving DecidableEq

/-- JavaScript `/` restricted to what the evaluator needs: exact on nonzero
denominators, `±Infinity` or `NaN` on a zero denominator. -/
def jsDiv (a b : ℚ) : JNum :=
  if b = 0 then
    if a = 0 then JNum.nan
    else if 0 < a then JNum.posInf
    else JNum.negInf
  else JNum.fin (a / b)

/-- Multiplication of a `JNum` by the constant 100 (`* 100` in the source);
the special values are absorbing. -/
def JNum.mul100 : JNum → JNum
  | JNum.fin q => JNum.fin (q * 100)
  | JNum.posInf => JNum.posInf
  | JNum.negInf => JNum.negInf
  | JNum.nan => JNum.nan

/-- JavaScript `x >= c` for a constant rational `c`: false on `NaN`. -/
def JNum.geC : JNum → ℚ → Bool
  | JNum.fin q, c => decide (c ≤ q)
  | JNum.posInf, _ => true
  | JNum.negInf, _ => false
  | JNum.nan, _ => false

/-- JavaScript `x < c` for a constant rational `c`: false on `NaN`. -/
def JNum.ltC : JNum → ℚ → Bool
  | JNum.fin q, c => decide (q < c)
  | JNum.posInf, _ => false
  | JNum.negInf, _ => true
  | JNum.nan, _ => false

/-- Model of `x.toFixed(1)` on the finite value reached in the alert branch:
the rational rounded to one decimal place.  (The branch guard guarantees the
argument is finite there; the value on specials is irrelevant junk.) -/
def JNum.toFix1 : JNum → ℚ
  | JNum.fin q => (round (q * 10) : ℤ) / 10
  | _ => 0

/-! ## Data model (src/shared/schema.ts) -/

/-- The `transaction_type` enum. -/
inductive TxType : Type where
  | income
  | expense
deriving DecidableEq

/-- A row of the `transactions` table.  `amount` is the parsed decimal,
`date` an epoch-second timestamp; the category is kept as its string value
(the source stores a closed string enum). -/
structure Txn : Type where
  id : Nat
  userId : Nat
  amount : ℚ
  description : String
  category : String
  type : TxType
  date : ℤ
deriving DecidableEq

/-- A row of the `budgets` table. -/
structure Budget : Type where
  id : Nat
  userId : Nat
  category : String
  amount : ℚ
  month : ℤ
  year : ℤ
deriving DecidableEq

/-- Structured model of the notification message templates of
`checkBudgetAlerts`: the alert message reports the percentage rounded to one
decimal place together with the spent and budgeted amounts; the exceeded
message reports the overage. -/
inductive Msg : Type where
  | budgetAlert (pct1dp spent budgeted : ℚ)
  | budgetExceeded (overage : ℚ)
deriving DecidableEq

/-- A row of the `notifications` table. -/
structure Notification : Type where
  userId : Nat
  title : String
  message : Msg
  type : String
  isRead : Bool
deriving DecidableEq

/-- The relational store: the three tables the claims touch. -/
structure DB : Type where
  transactions : List Txn
  budgets : List Budget
  notifications : List Notification
deriving DecidableEq

/-! ## Storage layer (src/unnamed/part_002) -/

/-- `getBudgetByCategory`: first budget row matching
`userId ∧ category ∧ month ∧ year`. -/
def getBudgetByCategory (db : DB) (userId : Nat) (category : String)
    (month year : ℤ) : Option Budget :=
  db.budgets.find? fun b =>
    b.userId == userId && b.category == category &&
    b.month == month && b.year == year

/-- `getTransactionsByDateRange`: the user's transactions with
`startDate ≤ date ≤ endDate` (both bounds inclusive: `gte`/`lte`). -/
def getTransactionsByDateRange (db : DB) (userId : Nat)
    (startDate endDate : ℤ) : List Txn :=
  db.transactions.filter fun t =>
    t.userId == userId && decide (startDate ≤ t.date) &&
    decide (t.date ≤ endDate)

/-- `createTransaction`: insert a row. -/
def createTransaction (db : DB) (t : Txn) : DB :=
  { db with transactions := db.transactions ++ [t] }

/-- `createNotification`: insert a row. -/
def createNotification (db : DB) (n : Notification) : DB :=
  { db with notifications := db.notifications ++ [n] }

/-- A partial update body for a transaction
(`insertTransactionSchema.partial()`). -/
structure TxnPatch : Type where
  amount : Option ℚ := none
  description : Option String := none
  category : Option String := none
  type : Option TxType := none
  date : Option ℤ := none

/-- Apply a partial update to a row (drizzle `update().set(...)` keeps the
columns the patch omits). -/
def applyPatch (p : TxnPatch) (t : Txn) : Txn :=
  { t with
    amount := p.amount.getD t.amount
    description := p.description.getD t.description
    category := p.category.getD t.category
    type := p.type.getD t.type
    date := p.date.getD t.date }

/-- `updateTransaction`: `UPDATE transactions SET ... WHERE id = ?` — the row
is selected by `id` alone, with no `userId` condition; returns the updated
row, or `none` when no row has that id. -/
def updateTransaction (db : DB) (id : Nat) (p : TxnPatch) :
    DB × Option Txn :=
  ({ db with transactions :=
      db.transactions.map fun t => if t.id == id then applyPatch p t else t },
   (db.transactions.find? (fun t => t.id == id)).map (applyPatch p))

/-- `deleteTransaction`: `DELETE FROM transactions WHERE id = ?` — again by
`id` alone; the boolean is `rowCount > 0`. -/
def deleteTransaction (db : DB) (id : Nat) : DB × Bool :=
  ({ db with transactions := db.transactions.filter fun t => !(t.id == id) },
   db.transactions.any fun t => t.id == id)

/-! ## Budget-alert evaluator (src/unnamed/part_000, `checkBudgetAlerts`) -/

/-- Which storage calls inside the evaluator fail (reject) on this
invocation; `{ }` with all fields `false` is the failure-free run. -/
structure Failures : Type where
  budgetLookup : Bool := false
  txnFetch : Bool := false
  notifInsert : Bool := false

/-- The failure-free storage behaviour. -/
def noFail : Failures := {}

/-- The category-and-type filter plus `reduce((sum, t) => sum +
parseFloat(t.amount), 0)` applied by the evaluator to the fetched rows. -/
def sumExpenses (category : String) (txs : List Txn) : ℚ :=
  (txs.filter fun t => t.category == category && t.type == TxType.expense
    ).foldl (fun s t => s + t.amount) 0

/-- The `totalSpent` value of the evaluator: the category/expense-filtered
sum over the user's transactions in the inclusive calendar-month range. -/
def totalSpentOf (db : DB) (userId : Nat) (category : String)
    (month year : ℤ) : ℚ :=
  sumExpenses category
    (getTransactionsByDateRange db userId (monthStart year month)
      (monthEnd year month))

/-- The body of `checkBudgetAlerts` inside its `try`: each storage call
throws when its `Failures` flag is set, otherwise behaves as the storage
layer; the returned database is the state after the conditional
notification insert. -/
def checkBudgetAlertsCore (f : Failures) (db : DB) (userId : Nat)
    (category : String) (month year : ℤ) : Except Unit DB := do
  let budget ← if f.budgetLookup then Except.error () else
    Except.ok (getBudgetByCategory db userId category month year)
  match budget with
  | none => return db
  | some b =>
    let txs ← if f.txnFetch then Except.error () else
      Except.ok (getTransactionsByDateRange db userId
        (monthStart year month) (monthEnd year month))
    let totalSpent := sumExpenses category txs
    let budgetAmount := b.amount
    let percentage := (jsDiv totalSpent budgetAmount).mul100
    if percentage.geC 80 && percentage.ltC 100 then
      if f.notifInsert then Except.error () else
        return createNotification db
          { userId := userId
            title := "Budget Alert - " ++ category
            message := Msg.budgetAlert percentage.toFix1 totalSpent budgetAmount
            type := "warning"
            isRead := false }
    else if percentage.geC 100 then
      if f.notifInsert then Except.error () else
        return createNotification db
          { userId := userId
            title := "Budget Exceeded - " ++ category
            message := Msg.budgetExceeded (totalSpent - budgetAmount)
            type := "warning"
            isRead := false }
    else
      return db

/-- `checkBudgetAlerts` with its surrounding `try/catch`: on any thrown
storage error the catch logs and falls through, leaving the database as it
was (the only write is the failing insert itself, which does not commit). -/
def checkBudgetAlerts (f : Failures) (db : DB) (userId : Nat)
    (category : String) (month year : ℤ) : DB :=
  match checkBudgetAlertsCore f db userId category month year with
  | Except.ok db' => db'
  | Except.error _ => db

/-! ## Transaction-creation route (src/unnamed/part_000, `POST /api/transactions`) -/

/-- A validated `insertTransactionSchema` body. -/
structure TxnRequest : Type where
  amount : ℚ
  description : String
  category : String
  type : TxType
  date : ℤ

/-- The row persisted for a request: server-assigned id, owner from the
session. -/
def mkTxn (id userId : Nat) (req : TxnRequest) : Txn :=
  { id := id, userId := userId, amount := req.amount
    description := req.description, category := req.category
    type := req.type, date := req.date }

/-- The route's response as far as the claims observe it:
`res.status(201).json(transaction)`. -/
inductive Response : Type where
  | created (t : Txn)
deriving DecidableEq

/-- The `POST /api/transactions` handler after validation: persist the row,
then — only for an expense — run `checkBudgetAlerts` with the month and year
of the current wall-clock date `now` (`new Date().getMonth() + 1`,
`new Date().getFullYear()`), then respond 201 with the created row. -/
def postTransaction (f : Failures) (db : DB) (userId : Nat) (now : ℤ)
    (newId : Nat) (req : TxnRequest) : DB × Response :=
  let t := mkTxn newId userId req
  let db1 := createTransaction db t
  let db2 :=
    if req.type == TxType.expense then
      checkBudgetAlerts f db1 userId req.category (nowMonth now) (nowYear now)
    else db1
  (db2, Response.created t)

/-! ## Route handlers for update/delete (src/unnamed/part_000) -/

/-- Outcome of `PUT /api/transactions/:id`: 200 with the row, or 404. -/
inductive UpdateResp : Type where
  | ok (t : Txn)
  | notFound
deriving DecidableEq

/-- The `PUT /api/transactions/:id` handler after validation: it passes only
the path id and the patch to `updateTransaction` — the authenticated
`callerId` is never compared against the row's owner. -/
def putTransactionRoute (db : DB) (callerId : Nat) (id : Nat)
    (p : TxnPatch) : DB × UpdateResp :=
  match updateTransaction db id p with
  | (db', some t) => (db', UpdateResp.ok t)
  | (db', none) => (db', UpdateResp.notFound)

/-- Outcome of `DELETE /api/transactions/:id`: 204, or 404. -/
inductive DeleteResp : Type where
  | noContent
  | notFound
deriving DecidableEq

/-- The `DELETE /api/transactions/:id` handler: again only the path id
reaches `deleteTransaction`; `callerId` is unused. -/
def deleteTransactionRoute (db : DB) (callerId : Nat) (id : Nat) :
    DB × DeleteResp :=
  match deleteTransaction db id with
  | (db', true) => (db', DeleteResp.noContent)
  | (db', false) => (db', DeleteResp.notFound)

/-! ## Aggregation queries (src/unnamed/part_002) -/

/-- Ascending insertion into a sorted list of month keys. -/
def insertAsc (x : ℤ) : List ℤ → List ℤ
  | [] => [x]
  | y :: ys => if x ≤ y then x :: y :: ys else y :: insertAsc x ys

/-- Ascending sort, modelling the `ORDER BY TO_CHAR(date, 'YYYY-MM')`
clause. -/
def sortAsc (l : List ℤ) : List ℤ := l.foldr insertAsc []

/-- The rows `getSpendingByCategory` aggregates: the user's `expense` rows
inside the inclusive calendar-month range (the SQL `WHERE` clause). -/
def spendRows (db : DB) (userId : Nat) (month year : ℤ) : List Txn :=
  db.transactions.filter fun t =>
    t.userId == userId && t.type == TxType.expense &&
    decide (monthStart year month ≤ t.date) &&
    decide (t.date ≤ monthEnd year month)

/-- `getSpendingByCategory`: sum of `amount` grouped by category over
`spendRows`; a category appears in the result only if it has at least one
matching row (SQL `GROUP BY`). -/
def getSpendingByCategory (db : DB) (userId : Nat) (month year : ℤ) :
    List (String × ℚ) :=
  (((spendRows db userId month year).map fun t => t.category).dedup).map
    fun c =>
      (c, (((spendRows db userId month year).filter
          fun t => t.category == c).map fun t => t.amount).sum)

/-- The rows `getMonthlyTrends` aggregates: the user's rows dated within
`[now shifted back by setMonth(getMonth() - months), now]` (the SQL `WHERE`
clause; `now` is the wall-clock instant of the `new Date()` calls). -/
def trendRows (db : DB) (userId : Nat) (now months : ℤ) : List Txn :=
  db.transactions.filter fun t =>
    t.userId == userId &&
    decide (jsSetMonth now (nowMonth now - 1 - months) ≤ t.date) &&
    decide (t.date ≤ now)

/-- `getMonthlyTrends`: group `trendRows` by the `YYYY-MM` key, ascending;
per bucket, income and expenses are the
`SUM(CASE WHEN type = ... THEN amount ELSE 0 END)` sums. -/
def getMonthlyTrends (db : DB) (userId : Nat) (now : ℤ) (months : ℤ) :
    List (ℤ × ℚ × ℚ) :=
  (sortAsc (((trendRows db userId now months).map
      fun t => monthKeyOf t.date).dedup)).map fun k =>
    (k,
     (((trendRows db userId now months).filter
        fun t => monthKeyOf t.date == k).map fun t =>
        if t.type == TxType.income then t.amount else 0).sum,
     (((trendRows db userId now months).filter
        fun t => monthKeyOf t.date == k).map fun t =>
        if t.type == TxType.expense then t.amount else 0).sum)

/-- The notification the evaluator inserts in its `80 ≤ percentage < 100`
branch. -/
def alertNotif (userId : Nat) (category : String) (p total amt : ℚ) :
    Notification :=
  { userId := userId, title := "Budget Alert - " ++ category
    message := Msg.budgetAlert p total amt, type := "warning", isRead := false }

/-- The notification the evaluator inserts in its `percentage >= 100`
branch. -/
def exceededNotif (userId : Nat) (category : String) (overage : ℚ) :
    Notification :=
  { userId := userId, title := "Budget Exceeded - " ++ category
    message := Msg.budgetExceeded overage, type := "warning", isRead := false }

/-! ## Concrete data used by the witnesses and scenarios -/

/-- Sample database for the C1 witness: a Food budget of 1000 for 10/2025 and
a single Food expense of 850 inside October 2025. -/
def dbW : DB :=
  { transactions :=
      [{ id := 10, userId := 1, amount := 850, description := "groceries"
         category := "Food", type := TxType.expense
         date := jsDateSec 2025 9 10 12 0 0 }]
    budgets :=
      [{ id := 1, userId := 1, category := "Food", amount := 1000
         month := 10, year := 2025 }]
    notifications := [] }

/-- The budget row of `dbW`. -/
def bW : Budget :=
  { id := 1, userId := 1, category := "Food", amount := 1000
    month := 10, year := 2025 }

/-- The combined membership test of C2: the user's row, dated inside the
inclusive calendar-month range, of type expense, in the category. -/
def spentCond (u : Nat) (c : String) (m y : ℤ) (t : Txn) : Bool :=
  t.userId == u && decide (monthStart y m ≤ t.date) &&
  decide (t.date ≤ monthEnd y m) && t.type == TxType.expense &&
  t.category == c

/-- First request of the C7 scenario: an 850 Food expense inside October
2025. -/
def reqA : TxnRequest :=
  { amount := 850, description := "grocery run", category := "Food"
    type := TxType.expense, date := jsDateSec 2025 9 10 12 0 0 }

/-- Second request of the C7 scenario: a further 200 Food expense in the
same month. -/
def reqB : TxnRequest :=
  { amount := 200, description := "restaurant", category := "Food"
    type := TxType.expense, date := jsDateSec 2025 9 12 12 0 0 }

/-- Wall-clock instant of both insertions: 2025-10-15 10:00:00. -/
def nowS : ℤ := jsDateSec 2025 9 15 10 0 0

/-- Starting database of the C7 scenario: only the Food budget of 1000 for
October 2025. -/
def dbS : DB := { transactions := [], budgets := [bW], notifications := [] }

/-- Database after the first insertion and its alert. -/
def dbS1 : DB :=
  { transactions := [mkTxn 10 1 reqA], budgets := [bW]
    notifications := [alertNotif 1 "Food" 85 850 1000] }

/-- The zero-amount budget row of the C10 witness. -/
def bZ : Budget :=
  { id := 1, userId := 1, category := "Food", amount := 0
    month := 10, year := 2025 }

/-- C10 witness database: a zero Food budget for October 2025 and an 850
Food expense inside that month. -/
def dbZ : DB :=
  { transactions :=
      [{ id := 1, userId := 1, amount := 850, description := "groceries"
         category := "Food", type := TxType.expense
         date := jsDateSec 2025 9 10 12 0 0 }]
    budgets := [bZ]
    notifications := [] }

/-- C9 database: a single transaction owned by user 2. -/
def dbO : DB :=
  { transactions :=
      [{ id := 7, userId := 2, amount := 50, description := "owned by user 2"
         category := "Food", type := TxType.expense, date := 0 }]
    budgets := [], notifications := [] }


/-- A user-1 expense row of 10 in `Food`, dated 2026 at month index `mi`
(0-based) and day `d`, noon. -/
def trow8 (n : Nat) (mi d : ℤ) : Txn :=
  { id := n, userId := 1, amount := 10, description := ""
    category := "Food", type := TxType.expense
    date := jsDateSec 2026 mi d 12 0 0 }

/-- C8 scenario database: seven transactions of user 1 dated 2026-04-20 and
the first of each month from May to October 2026. -/
def dbT8 : DB :=
  { transactions := [trow8 1 3 20, trow8 2 4 1, trow8 3 5 1, trow8 4 6 1,
      trow8 5 7 1, trow8 6 8 1, trow8 7 9 1]
    budgets := [], notifications := [] }

/-- C8 scenario wall clock: 2026-10-11 12:00:00. -/
def now8 : ℤ := jsDateSec 2026 9 11 12 0 0

/-- On a failure-free run, `checkBudgetAlerts` reduces to its arithmetic:
no-op without a budget row, otherwise the three-way threshold split on the
percentage. -/
theorem checkBudgetAlerts_noFail_eq (db : DB) (u : Nat) (c : String)
    (m y : ℤ) :
    checkBudgetAlerts noFail db u c m y =
      match getBudgetByCategory db u c m y with
      | none => db
      | some b =>
        let totalSpent := totalSpentOf db u c m y
        let percentage := (jsDiv totalSpent b.amount).mul100
        if percentage.geC 80 && percentage.ltC 100 then
          createNotification db
            (alertNotif u c percentage.toFix1 totalSpent b.amount)
        else if percentage.geC 100 then
          createNotification db (exceededNotif u c (totalSpent - b.amount))
        else db := by
  cases h : getBudgetByCategory db u c m y with
  | none =>
      simp [checkBudgetAlerts, checkBudgetAlertsCore, noFail, h, bind,
        Except.bind, pure, Except.pure]
  | some b =>
      simp only [checkBudgetAlerts, checkBudgetAlertsCore, noFail, h, bind,
        Except.bind, pure, Except.pure, totalSpentOf, alertNotif,
        exceededNotif, Bool.false_eq_true, if_false]
      split_ifs <;> rfl

/-- On a nonzero denominator, the JavaScript division is the exact one. -/
theorem jsDiv_of_ne (a b : ℚ) (h : b ≠ 0) : jsDiv a b = JNum.fin (a / b) := by
  simp [jsDiv, h]

/-! ## C1 — threshold behaviour of the evaluator -/

/-- C1: for a budget with positive amount, the evaluator applies
non-overlapping thresholds to `percentage = totalSpent / budgetAmount * 100`:
at `80 ≤ percentage < 100` it creates exactly one warning notification titled
"Budget Alert - <category>" whose message reports the percentage rounded to
one decimal place; at `percentage ≥ 100` one warning titled
"Budget Exceeded - <category>" whose message reports the overage
`totalSpent - budgetAmount`; below 80 it creates nothing. -/
theorem c1_threshold_bands (db : DB) (u : Nat) (c : String) (m y : ℤ)
    (b : Budget) (hb : getBudgetByCategory db u c m y = some b)
    (hpos : 0 < b.amount) :
    ((80 ≤ totalSpentOf db u c m y / b.amount * 100 ∧
        totalSpentOf db u c m y / b.amount * 100 < 100) →
      checkBudgetAlerts noFail db u c m y =
        createNotification db
          (alertNotif u c
            ((round (totalSpentOf db u c m y / b.amount * 100 * 10) : ℤ) / 10)
            (totalSpentOf db u c m y) b.amount)) ∧
    (100 ≤ totalSpentOf db u c m y / b.amount * 100 →
      checkBudgetAlerts noFail db u c m y =
        createNotification db
          (exceededNotif u c (totalSpentOf db u c m y - b.amount))) ∧
    (totalSpentOf db u c m y / b.amount * 100 < 80 →
      checkBudgetAlerts noFail db u c m y = db) := by
  have hred := checkBudgetAlerts_noFail_eq db u c m y
  rw [hb] at hred
  dsimp only at hred
  rw [jsDiv_of_ne _ _ (ne_of_gt hpos)] at hred
  simp only [JNum.mul100, JNum.geC, JNum.ltC, JNum.toFix1] at hred
  simp only [Bool.and_eq_true, decide_eq_true_eq] at hred
  refine ⟨fun h1 => ?_, fun h2 => ?_, fun h3 => ?_⟩
  · rw [hred, if_pos ⟨h1.1, h1.2⟩]
  · have hnotlt : ¬ (totalSpentOf db u c m y / b.amount * 100 < 100) :=
      not_lt.mpr h2
    rw [hred, if_neg (fun hcon => hnotlt hcon.2), if_pos h2]
  · have hnotge : ¬ ((80 : ℚ) ≤ totalSpentOf db u c m y / b.amount * 100) :=
      not_le.mpr h3
    have hnotge' : ¬ ((100 : ℚ) ≤ totalSpentOf db u c m y / b.amount * 100) :=
      not_le.mpr (lt_trans h3 (by norm_num))
    rw [hred, if_neg (fun hcon => hnotge hcon.1), if_neg hnotge']

/-- C1 witness: on `dbW` the spend is 85% of budget, and the evaluator
creates exactly the 85.0% "Budget Alert - Food" warning. -/
theorem c1_threshold_bands_witness :
    checkBudgetAlerts noFail dbW 1 "Food" 10 2025 =
      createNotification dbW (alertNotif 1 "Food" 85 850 1000) := by
  have h := (c1_threshold_bands dbW 1 "Food" 10 2025 bW rfl
    (by norm_num [bW])).1
  have h0 : totalSpentOf dbW 1 "Food" 10 2025 = 0 + 850 := rfl
  have hs : totalSpentOf dbW 1 "Food" 10 2025 = 850 := by rw [h0]; norm_num
  have h2 := h (by rw [hs]; constructor <;> norm_num [bW])
  rw [h2, hs]
  simp only [createNotification, alertNotif, bW]
  norm_num [round_eq]

/-! ## C2 — what `totalSpent` sums -/

/-- A left fold of `+ amount` is the starting value plus the sum of the
amounts (the shape of the source's `reduce`). -/
theorem foldl_add_amount (l : List Txn) (s : ℚ) :
    l.foldl (fun a t => a + t.amount) s = s + (l.map fun t => t.amount).sum := by
  induction l generalizing s with
  | nil => simp
  | cons t l ih => simp [ih, add_assoc]

/-- `totalSpent` is the sum of the amounts of exactly the rows passing
`spentCond`. -/
theorem totalSpent_eq_filter_sum (db : DB) (u : Nat) (c : String)
    (m y : ℤ) :
    totalSpentOf db u c m y =
      ((db.transactions.filter (spentCond u c m y)).map fun t => t.amount).sum := by
  rw [totalSpentOf, sumExpenses, getTransactionsByDateRange,
    List.filter_filter, foldl_add_amount, zero_add]
  have hfil : (db.transactions.filter fun t =>
      (t.category == c && t.type == TxType.expense) &&
      (t.userId == u && decide (monthStart y m ≤ t.date) &&
        decide (t.date ≤ monthEnd y m))) =
      db.transactions.filter (spentCond u c m y) := by
    refine List.filter_congr fun t _ => ?_
    simp only [spentCond]
    cases t.category == c <;> cases t.type == TxType.expense <;>
      cases t.userId == u <;>
      cases decide (monthStart y m ≤ t.date) <;>
      cases decide (t.date ≤ monthEnd y m) <;> rfl
  rw [hfil]

/-- C2: `totalSpent` equals the sum of the amounts of exactly those
transactions of the given user dated within the inclusive calendar-month
range, of type expense and of the evaluated category; and a transaction
failing any of those conditions (another user, type income, another
category, or a date outside the range) contributes nothing. -/
theorem c2_totalSpent_scope (db : DB) (u : Nat) (c : String) (m y : ℤ) :
    totalSpentOf db u c m y =
      ((db.transactions.filter fun t =>
          t.userId == u && decide (monthStart y m ≤ t.date) &&
          decide (t.date ≤ monthEnd y m) && t.type == TxType.expense &&
          t.category == c).map fun t => t.amount).sum ∧
    ∀ t : Txn,
      (t.userId ≠ u ∨ t.type = TxType.income ∨ t.category ≠ c ∨
        t.date < monthStart y m ∨ monthEnd y m < t.date) →
      totalSpentOf { db with transactions := t :: db.transactions } u c m y =
        totalSpentOf db u c m y := by
  constructor
  · exact totalSpent_eq_filter_sum db u c m y
  · intro t ht
    have hneg : spentCond u c m y t = false := by
      rcases ht with h | h | h | h | h
      · simp [spentCond, beq_eq_false_iff_ne.mpr h]
      · have : (t.type == TxType.expense) = false := by rw [h]; rfl
        simp [spentCond, this]
      · simp [spentCond, beq_eq_false_iff_ne.mpr h]
      · simp [spentCond, decide_eq_false (not_le.mpr h)]
      · simp [spentCond, decide_eq_false (not_le.mpr h)]
    have h1 := totalSpent_eq_filter_sum
      { db with transactions := t :: db.transactions } u c m y
    have h2 := totalSpent_eq_filter_sum db u c m y
    rw [h1, h2]
    simp only [List.filter_cons, hneg, Bool.false_eq_true, if_false]

/-- C2 witness: adding an income row changes nothing; on a concrete
database the characterization evaluates. -/
theorem c2_totalSpent_scope_witness :
    totalSpentOf { dbW with transactions :=
        { id := 99, userId := 1, amount := 7777, description := "salary"
          category := "Food", type := TxType.income
          date := jsDateSec 2025 9 11 12 0 0 } :: dbW.transactions }
      1 "Food" 10 2025 = totalSpentOf dbW 1 "Food" 10 2025 := by
  exact (c2_totalSpent_scope dbW 1 "Food" 10 2025).2 _ (Or.inr (Or.inl rfl))

/-! ## C3 — missing budget row means no-op -/

/-- C3: when no budget row matches `(userId, category, month, year)`, the
evaluator leaves the database untouched (no notification, no other write,
and its catch-all means no error escapes); consequently creating an expense
transaction in a category with no matching budget for the current month adds
no notification. -/
theorem c3_no_budget_noop (f : Failures) (db : DB) (u : Nat) (c : String)
    (m y : ℤ) (hf : f.budgetLookup = false)
    (hb : getBudgetByCategory db u c m y = none) :
    checkBudgetAlerts f db u c m y = db ∧
    ∀ (now : ℤ) (newId : Nat) (req : TxnRequest),
      req.type = TxType.expense →
      getBudgetByCategory db u req.category (nowMonth now) (nowYear now) =
        none →
      (postTransaction f db u now newId req).1.notifications =
        db.notifications := by
  constructor
  · simp [checkBudgetAlerts, checkBudgetAlertsCore, hf, hb, bind,
      Except.bind, pure, Except.pure]
  · intro now newId req hty hlook
    have hlook1 : getBudgetByCategory
        (createTransaction db (mkTxn newId u req)) u req.category
        (nowMonth now) (nowYear now) = none := hlook
    have heval : checkBudgetAlerts f (createTransaction db (mkTxn newId u req))
        u req.category (nowMonth now) (nowYear now) =
        createTransaction db (mkTxn newId u req) := by
      simp [checkBudgetAlerts, checkBudgetAlertsCore, hf, hlook1, bind,
        Except.bind, pure, Except.pure]
    simp only [postTransaction, hty, beq_self_eq_true, if_true]
    rw [heval]
    rfl

/-- C3 witness: a database with no budgets at all. -/
theorem c3_no_budget_noop_witness :
    checkBudgetAlerts noFail
      { transactions := [], budgets := [], notifications := [] }
      1 "Food" 10 2025 =
      { transactions := [], budgets := [], notifications := [] } := by
  exact (c3_no_budget_noop noFail
    { transactions := [], budgets := [], notifications := [] }
    1 "Food" 10 2025 rfl rfl).1

/-! ## C4 — when and with which month the evaluator runs -/

/-- C4: the handler persists the row first and then runs the evaluator
exactly once and only for an expense (an income creation never reaches it);
the month and year passed to the evaluator are those of the wall-clock
instant `now` at insertion time, not of the transaction's own `req.date` —
a back-dated expense is still evaluated against the current month. -/
theorem c4_evaluator_invocation (f : Failures) (db : DB) (u : Nat)
    (now : ℤ) (newId : Nat) (req : TxnRequest) :
    (req.type = TxType.income →
      postTransaction f db u now newId req =
        (createTransaction db (mkTxn newId u req),
         Response.created (mkTxn newId u req))) ∧
    (req.type = TxType.expense →
      postTransaction f db u now newId req =
        (checkBudgetAlerts f (createTransaction db (mkTxn newId u req)) u
           req.category (nowMonth now) (nowYear now),
         Response.created (mkTxn newId u req))) := by
  constructor
  · intro h
    simp [postTransaction, h]
  · intro h
    simp [postTransaction, h]

/-- C4 witness: a concrete expense request routed through the handler is
evaluated against month 10 / year 2025, the calendar month of the wall-clock
instant, although the request is back-dated to 2024. -/
theorem c4_evaluator_invocation_witness :
    postTransaction noFail dbW 1 (jsDateSec 2025 9 15 10 0 0) 42
        { amount := 5, description := "backdated", category := "Food"
          type := TxType.expense, date := jsDateSec 2024 0 2 0 0 0 } =
      (checkBudgetAlerts noFail
        (createTransaction dbW (mkTxn 42 1
          { amount := 5, description := "backdated", category := "Food"
            type := TxType.expense, date := jsDateSec 2024 0 2 0 0 0 }))
        1 "Food" 10 2025,
       Response.created (mkTxn 42 1
        { amount := 5, description := "backdated", category := "Food"
          type := TxType.expense, date := jsDateSec 2024 0 2 0 0 0 })) := by
  have h := (c4_evaluator_invocation noFail dbW 1
    (jsDateSec 2025 9 15 10 0 0) 42
    { amount := 5, description := "backdated", category := "Food"
      type := TxType.expense, date := jsDateSec 2024 0 2 0 0 0 }).2 rfl
  rw [h]
  have hm : nowMonth (jsDateSec 2025 9 15 10 0 0) = 10 := by decide
  have hy : nowYear (jsDateSec 2025 9 15 10 0 0) = 2025 := by decide
  rw [hm, hy]

/-! ## C7 — no deduplication: two qualifying expenses, two notifications -/

/-- Evaluator run after the first insertion: 850 of 1000 is 85%, inside the
alert band. -/
theorem evalS1 :
    checkBudgetAlerts noFail (createTransaction dbS (mkTxn 10 1 reqA))
      1 "Food" 10 2025 = dbS1 := by
  have hb : getBudgetByCategory (createTransaction dbS (mkTxn 10 1 reqA))
      1 "Food" 10 2025 = some bW := rfl
  have hred := checkBudgetAlerts_noFail_eq
    (createTransaction dbS (mkTxn 10 1 reqA)) 1 "Food" 10 2025
  rw [hb] at hred
  dsimp only at hred
  have h0 : totalSpentOf (createTransaction dbS (mkTxn 10 1 reqA))
      1 "Food" 10 2025 = 0 + 850 := rfl
  have hts : totalSpentOf (createTransaction dbS (mkTxn 10 1 reqA))
      1 "Food" 10 2025 = 850 := by rw [h0]; norm_num
  rw [hts, show bW.amount = 1000 from rfl,
    jsDiv_of_ne 850 1000 (by norm_num)] at hred
  simp only [JNum.mul100, JNum.geC, JNum.ltC, JNum.toFix1,
    Bool.and_eq_true, decide_eq_true_eq] at hred
  norm_num [round_eq] at hred
  rw [hred]
  rfl

/-- Evaluator run after the second insertion: cumulative 1050 of 1000 is
105%, in the exceeded band, and a second notification is appended. -/
theorem evalS2 :
    checkBudgetAlerts noFail (createTransaction dbS1 (mkTxn 11 1 reqB))
      1 "Food" 10 2025 =
      { transactions := [mkTxn 10 1 reqA, mkTxn 11 1 reqB], budgets := [bW]
        notifications := [alertNotif 1 "Food" 85 850 1000,
          exceededNotif 1 "Food" 50] } := by
  have hb : getBudgetByCategory (createTransaction dbS1 (mkTxn 11 1 reqB))
      1 "Food" 10 2025 = some bW := rfl
  have hred := checkBudgetAlerts_noFail_eq
    (createTransaction dbS1 (mkTxn 11 1 reqB)) 1 "Food" 10 2025
  rw [hb] at hred
  dsimp only at hred
  have h0 : totalSpentOf (createTransaction dbS1 (mkTxn 11 1 reqB))
      1 "Food" 10 2025 = 0 + 850 + 200 := rfl
  have hts : totalSpentOf (createTransaction dbS1 (mkTxn 11 1 reqB))
      1 "Food" 10 2025 = 1050 := by rw [h0]; norm_num
  rw [hts, show bW.amount = 1000 from rfl,
    jsDiv_of_ne 1050 1000 (by norm_num)] at hred
  simp only [JNum.mul100, JNum.geC, JNum.ltC, JNum.toFix1,
    Bool.and_eq_true, decide_eq_true_eq] at hred
  norm_num [round_eq] at hred
  rw [hred]
  rfl

/-- C7: alert creation is not idempotent — two back-to-back qualifying
expense insertions in the same category and month leave two separate
notifications, the 85% alert from the first and the overage-50 exceeded
notification from the second; the evaluator re-evaluates from scratch and
never deduplicates against the existing notification. -/
theorem c7_no_dedup :
    ((postTransaction noFail
        (postTransaction noFail dbS 1 nowS 10 reqA).1
        1 nowS 11 reqB).1).notifications =
      [alertNotif 1 "Food" 85 850 1000, exceededNotif 1 "Food" 50] := by
  have hm : nowMonth nowS = 10 := by decide
  have hy : nowYear nowS = 2025 := by decide
  have e1 : (postTransaction noFail dbS 1 nowS 10 reqA).1 = dbS1 := by
    simp only [postTransaction, hm, hy,
      show (reqA.type == TxType.expense) = true from rfl, if_true,
      show reqA.category = "Food" from rfl]
    exact evalS1
  rw [e1]
  simp only [postTransaction, hm, hy,
    show (reqB.type == TxType.expense) = true from rfl, if_true,
    show reqB.category = "Food" from rfl]
  rw [evalS2]

/-! ## C10 — zero budget amount: Infinity / NaN semantics -/

/-- C10: with a budget row whose amount parses to 0 the division is
unguarded.  If `totalSpent > 0` the percentage is `+Infinity`, which passes
the `percentage >= 100` test, so a "Budget Exceeded" notification is created
(with overage `totalSpent - budgetAmount`); if `totalSpent = 0` the
percentage is `NaN`, every comparison is false and nothing is created.
Neither case raises an error. -/
theorem c10_zero_budget (db : DB) (u : Nat) (c : String) (m y : ℤ)
    (b : Budget) (hb : getBudgetByCategory db u c m y = some b)
    (h0 : b.amount = 0) :
    (0 < totalSpentOf db u c m y →
      checkBudgetAlerts noFail db u c m y =
        createNotification db
          (exceededNotif u c (totalSpentOf db u c m y - b.amount))) ∧
    (totalSpentOf db u c m y = 0 →
      checkBudgetAlerts noFail db u c m y = db) := by
  have hred := checkBudgetAlerts_noFail_eq db u c m y
  rw [hb] at hred
  dsimp only at hred
  rw [h0] at hred
  constructor
  · intro hpos
    rw [h0]
    have hj : jsDiv (totalSpentOf db u c m y) 0 = JNum.posInf := by
      simp [jsDiv, ne_of_gt hpos, hpos]
    rw [hj] at hred
    simp only [JNum.mul100, JNum.geC, JNum.ltC, Bool.and_false,
      Bool.false_eq_true, if_false, if_true] at hred
    exact hred
  · intro hz
    have hj : jsDiv (totalSpentOf db u c m y) 0 = JNum.nan := by
      simp [jsDiv, hz]
    rw [hj] at hred
    simp only [JNum.mul100, JNum.geC, JNum.ltC, Bool.and_false,
      Bool.false_eq_true, if_false] at hred
    exact hred

/-- C10 witness: on `dbZ` the spend is positive against a zero budget, and
the evaluator creates the "Budget Exceeded" notification with overage 850. -/
theorem c10_zero_budget_witness :
    checkBudgetAlerts noFail dbZ 1 "Food" 10 2025 =
      createNotification dbZ (exceededNotif 1 "Food" 850) := by
  have h := (c10_zero_budget dbZ 1 "Food" 10 2025 bZ rfl rfl).1
  have h0 : totalSpentOf dbZ 1 "Food" 10 2025 = 0 + 850 := rfl
  have hts : totalSpentOf dbZ 1 "Food" 10 2025 = 850 := by rw [h0]; norm_num
  have h2 := h (by rw [hts]; norm_num)
  rw [h2, hts, show bZ.amount = 0 from rfl]
  norm_num [createNotification, exceededNotif]

/-! ## C9 — ownership is not checked on update or delete -/

/-- C9 (code bug demonstration): the `PUT` and `DELETE` transaction handlers
select the row by id alone and never compare the caller with the row's
owner, so caller 1 successfully updates — and successfully deletes — the row
of user 2, receiving a success outcome instead of the not-found the
specification requires. -/
theorem c9_missing_ownership_check :
    (putTransactionRoute dbO 1 7 { amount := some 999 }).2 =
      UpdateResp.ok
        { id := 7, userId := 2, amount := 999
          description := "owned by user 2", category := "Food"
          type := TxType.expense, date := 0 } ∧
    (putTransactionRoute dbO 1 7 { amount := some 999 }).1.transactions =
      [{ id := 7, userId := 2, amount := 999
         description := "owned by user 2", category := "Food"
         type := TxType.expense, date := 0 }] ∧
    (deleteTransactionRoute dbO 1 7).2 = DeleteResp.noContent ∧
    (deleteTransactionRoute dbO 1 7).1.transactions = [] := by
  exact ⟨rfl, rfl, rfl, rfl⟩

/-! ## C5 — evaluator failures never reach the creation response -/

/-- Whatever fails inside it, the evaluator never touches the transactions
table. -/
theorem checkBudgetAlerts_transactions (f : Failures) (db : DB) (u : Nat)
    (c : String) (m y : ℤ) :
    (checkBudgetAlerts f db u c m y).transactions = db.transactions := by
  unfold checkBudgetAlerts checkBudgetAlertsCore
  cases hf : f.budgetLookup
  · cases hb : getBudgetByCategory db u c m y
    · simp [bind, Except.bind, pure, Except.pure]
    · cases ht : f.txnFetch
      · cases hn : f.notifInsert <;>
          · simp only [bind, Except.bind, pure, Except.pure,
              Bool.false_eq_true, if_false, if_true]
            split_ifs <;> simp [createNotification]
      · simp [bind, Except.bind, pure, Except.pure]
  · simp [bind, Except.bind]

/-- C5: for every combination of evaluator-internal failures (budget lookup,
transaction fetch, notification insert), the `POST /api/transactions`
handler still answers 201 with the created transaction, and the persisted
row is still in the table — the evaluator's errors are swallowed and the
write is never rolled back. -/
theorem c5_failure_isolation (f : Failures) (db : DB) (u : Nat) (now : ℤ)
    (newId : Nat) (req : TxnRequest) :
    (postTransaction f db u now newId req).2 =
      Response.created (mkTxn newId u req) ∧
    (postTransaction f db u now newId req).1.transactions =
      db.transactions ++ [mkTxn newId u req] := by
  constructor
  · simp [postTransaction]
  · simp only [postTransaction]
    cases h : req.type == TxType.expense
    · simp [h, createTransaction]
    · simp only [h, if_true]
      rw [checkBudgetAlerts_transactions]
      rfl

/-! ## Lemmas about the grouping combinators of the aggregation queries -/

/-- Membership in an ascending insertion. -/
theorem mem_insertAsc (x a : ℤ) (l : List ℤ) :
    a ∈ insertAsc x l ↔ a = x ∨ a ∈ l := by
  induction l with
  | nil => simp [insertAsc]
  | cons y ys ih =>
      by_cases h : x ≤ y
      · simp [insertAsc, h]
      · simp [insertAsc, h, ih]
        tauto

/-- Membership is preserved by the ascending sort. -/
theorem mem_sortAsc (a : ℤ) (l : List ℤ) : a ∈ sortAsc l ↔ a ∈ l := by
  induction l with
  | nil => simp [sortAsc]
  | cons y ys ih =>
      show a ∈ insertAsc y (sortAsc ys) ↔ _
      rw [mem_insertAsc, ih]
      simp

/-- Ascending insertion preserves sortedness. -/
theorem pairwise_insertAsc (x : ℤ) (l : List ℤ)
    (h : l.Pairwise (· ≤ ·)) : (insertAsc x l).Pairwise (· ≤ ·) := by
  induction l with
  | nil => simp [insertAsc]
  | cons y ys ih =>
      rw [List.pairwise_cons] at h
      by_cases hxy : x ≤ y
      · rw [show insertAsc x (y :: ys) = x :: y :: ys by simp [insertAsc, hxy]]
        rw [List.pairwise_cons]
        refine ⟨?_, List.pairwise_cons.mpr h⟩
        intro a ha
        rcases List.mem_cons.mp ha with rfl | ha'
        · exact hxy
        · exact le_trans hxy (h.1 a ha')
      · rw [show insertAsc x (y :: ys) = y :: insertAsc x ys by
          simp [insertAsc, hxy]]
        rw [List.pairwise_cons]
        refine ⟨?_, ih h.2⟩
        intro a ha
        rcases (mem_insertAsc x a ys).mp ha with rfl | ha'
        · exact le_of_not_le hxy
        · exact h.1 a ha'

/-- The ascending sort is sorted. -/
theorem pairwise_sortAsc (l : List ℤ) : (sortAsc l).Pairwise (· ≤ ·) := by
  induction l with
  | nil => simp [sortAsc]
  | cons y ys ih => exact pairwise_insertAsc y (sortAsc ys) ih

/-- Ascending insertion of a fresh element preserves distinctness. -/
theorem nodup_insertAsc (x : ℤ) (l : List ℤ) (hx : x ∉ l)
    (h : l.Nodup) : (insertAsc x l).Nodup := by
  induction l with
  | nil => simp [insertAsc]
  | cons y ys ih =>
      rw [List.nodup_cons] at h
      by_cases hxy : x ≤ y
      · rw [show insertAsc x (y :: ys) = x :: y :: ys by simp [insertAsc, hxy]]
        exact List.nodup_cons.mpr ⟨hx, List.nodup_cons.mpr h⟩
      · rw [show insertAsc x (y :: ys) = y :: insertAsc x ys by
          simp [insertAsc, hxy]]
        refine List.nodup_cons.mpr ⟨?_, ih (fun hc => hx (by simp [hc])) h.2⟩
        intro hc
        rcases (mem_insertAsc x y ys).mp hc with rfl | hc'
        · exact hx (by simp)
        · exact h.1 hc'

/-- The ascending sort of a duplicate-free list is duplicate-free. -/
theorem nodup_sortAsc (l : List ℤ) (h : l.Nodup) : (sortAsc l).Nodup := by
  induction l with
  | nil => simp [sortAsc]
  | cons y ys ih =>
      rw [List.nodup_cons] at h
      exact nodup_insertAsc y (sortAsc ys)
        (fun hc => h.1 ((mem_sortAsc y ys).mp hc)) (ih h.2)

/-- The ascending sort of a duplicate-free list is strictly ascending. -/
theorem pairwise_lt_sortAsc (l : List ℤ) (h : l.Nodup) :
    (sortAsc l).Pairwise (· < ·) := by
  have h1 := pairwise_sortAsc l
  have h2 := nodup_sortAsc l h
  exact (h1.and h2).imp fun hab => lt_of_le_of_ne hab.1 hab.2

/-- Membership in a graph-style map `k ↦ (k, f k)`. -/
theorem mem_map_graph {α β : Type} (keys : List α) (f : α → β) (k : α)
    (v : β) :
    (k, v) ∈ keys.map (fun a => (a, f a)) ↔ k ∈ keys ∧ v = f k := by
  rw [List.mem_map]
  constructor
  · rintro ⟨a, ha, hav⟩
    rw [Prod.ext_iff] at hav
    rcases hav with ⟨h1, h2⟩
    dsimp at h1 h2
    subst h1
    exact ⟨ha, h2.symm⟩
  · rintro ⟨hk, rfl⟩
    exact ⟨k, hk, rfl⟩

/-- Summing a `CASE WHEN p THEN amount ELSE 0` column equals summing the
amounts of the `p`-filtered rows. -/
theorem sum_map_ite (p : Txn → Bool) (l : List Txn) :
    (l.map fun t => if p t then t.amount else 0).sum =
      ((l.filter p).map fun t => t.amount).sum := by
  induction l with
  | nil => simp
  | cons t ts ih =>
      cases h : p t <;> simp [List.filter_cons, h, ih]

/-- Per row, the income-case column plus the expense-case column is the
amount: a transaction is counted in exactly one of the two sums. -/
theorem sum_ite_income_add_expense (l : List Txn) :
    (l.map fun t => if t.type == TxType.income then t.amount else 0).sum +
      (l.map fun t => if t.type == TxType.expense then t.amount else 0).sum =
      (l.map fun t => t.amount).sum := by
  induction l with
  | nil => simp
  | cons t ts ih =>
      simp only [List.map_cons, List.sum_cons]
      cases h : t.type
      · rw [show (TxType.income == TxType.income) = true from rfl,
          show (TxType.income == TxType.expense) = false from rfl]
        simp only [if_true, Bool.false_eq_true, if_false]
        linarith [ih]
      · rw [show (TxType.expense == TxType.income) = false from rfl,
          show (TxType.expense == TxType.expense) = true from rfl]
        simp only [if_true, Bool.false_eq_true, if_false]
        linarith [ih]

/-- A sum of an indicator column over a duplicate-free key list containing
the key picks out the single value. -/
theorem sum_map_indicator (keys : List ℤ) (x : ℤ) (v : ℚ)
    (hnd : keys.Nodup) (hx : x ∈ keys) :
    (keys.map fun k => if x == k then v else 0).sum = v := by
  induction keys with
  | nil => cases hx
  | cons k ks ih =>
      rw [List.nodup_cons] at hnd
      rcases List.mem_cons.mp hx with rfl | hx'
      · have hz : (ks.map fun k' => if x == k' then v else 0).sum = 0 := by
          apply List.sum_eq_zero
          intro q hq
          rw [List.mem_map] at hq
          rcases hq with ⟨k', hk', rfl⟩
          have hne : (x == k') = false := by
            refine beq_eq_false_iff_ne.mpr fun hc => ?_
            subst hc
            exact hnd.1 hk'
          simp [hne]
        simp only [List.map_cons, List.sum_cons, beq_self_eq_true, if_true,
          hz, add_zero]
      · have hxk : (x == k) = false := by
          refine beq_eq_false_iff_ne.mpr ?_
          intro hc
          subst hc
          exact hnd.1 hx'
        simp only [List.map_cons, List.sum_cons, hxk, Bool.false_eq_true,
          if_false, zero_add]
        exact ih hnd.2 hx'

/-- Fiberwise summation: grouping the rows by key over a duplicate-free key
list covering every row counts each row's amount exactly once. -/
theorem sum_fibers (key : Txn → ℤ) (keys : List ℤ) (rows : List Txn)
    (hnd : keys.Nodup) (hcov : ∀ r ∈ rows, key r ∈ keys) :
    (keys.map fun k =>
      ((rows.filter fun r => key r == k).map fun t => t.amount).sum).sum =
      (rows.map fun t => t.amount).sum := by
  induction rows with
  | nil => simp
  | cons r rs ih =>
      have hstep : ∀ k : ℤ,
          ((List.filter (fun r' => key r' == k) (r :: rs)).map
            fun t => t.amount).sum =
          (if key r == k then r.amount else 0) +
            ((rs.filter fun r' => key r' == k).map fun t => t.amount).sum := by
        intro k
        cases h : key r == k <;> simp [List.filter_cons, h]
      calc (keys.map fun k =>
            ((List.filter (fun r' => key r' == k) (r :: rs)).map
              fun t => t.amount).sum).sum
          = (keys.map fun k => (if key r == k then r.amount else 0) +
              ((rs.filter fun r' => key r' == k).map fun t => t.amount).sum).sum := by
            congr 1
            exact List.map_congr_left fun k _ => hstep k
        _ = (keys.map fun k => if key r == k then r.amount else 0).sum +
              (keys.map fun k =>
                ((rs.filter fun r' => key r' == k).map fun t => t.amount).sum).sum := by
            rw [← List.sum_map_add]
        _ = r.amount + (rs.map fun t => t.amount).sum := by
            rw [sum_map_indicator keys (key r) r.amount hnd
              (hcov r (by simp))]
            rw [ih fun r' hr' => hcov r' (by simp [hr'])]
        _ = ((r :: rs).map fun t => t.amount).sum := by simp

/-! ## C6 — scoping and partitioning of the aggregation queries -/

/-- C6: `getSpendingByCategory` returns exactly one entry per category that
has at least one matching row — a row matches only if it belongs to the
user, is an expense, and is dated inside the month — with the sum of those
rows' amounts; `getMonthlyTrends` reads only the user's rows, each bucket's
income (resp. expenses) total sums exactly the income-typed (resp.
expense-typed) rows of that month key, and summing income + expenses over
all buckets counts every aggregated row's amount exactly once (no double
counting). -/
theorem c6_aggregation_scope (db : DB) (u : Nat)
    (month year now months : ℤ) :
    (∀ (c : String) (s : ℚ),
      (c, s) ∈ getSpendingByCategory db u month year ↔
        ((∃ t ∈ spendRows db u month year, t.category = c) ∧
         s = (((spendRows db u month year).filter
            fun t => t.category == c).map fun t => t.amount).sum)) ∧
    (∀ t ∈ spendRows db u month year,
      t.userId = u ∧ t.type = TxType.expense ∧
      monthStart year month ≤ t.date ∧ t.date ≤ monthEnd year month) ∧
    (∀ t ∈ trendRows db u now months, t.userId = u) ∧
    (∀ (k : ℤ) (i e : ℚ), (k, i, e) ∈ getMonthlyTrends db u now months →
      i = (((trendRows db u now months).filter
          fun t => t.type == TxType.income && monthKeyOf t.date == k).map
          fun t => t.amount).sum ∧
      e = (((trendRows db u now months).filter
          fun t => t.type == TxType.expense && monthKeyOf t.date == k).map
          fun t => t.amount).sum) ∧
    ((getMonthlyTrends db u now months).map fun r => r.2.1 + r.2.2).sum =
      ((trendRows db u now months).map fun t => t.amount).sum := by
  refine ⟨?_, ?_, ?_, ?_, ?_⟩
  · intro c s
    rw [getSpendingByCategory, mem_map_graph]
    constructor
    · rintro ⟨hc, rfl⟩
      rw [List.mem_dedup, List.mem_map] at hc
      rcases hc with ⟨t, ht, hcat⟩
      exact ⟨⟨t, ht, hcat⟩, rfl⟩
    · rintro ⟨⟨t, ht, hcat⟩, rfl⟩
      exact ⟨List.mem_dedup.mpr (List.mem_map.mpr ⟨t, ht, hcat⟩), rfl⟩
  · intro t ht
    rw [spendRows, List.mem_filter] at ht
    have h2 := ht.2
    simp only [Bool.and_eq_true, beq_iff_eq, decide_eq_true_eq] at h2
    exact ⟨h2.1.1.1, h2.1.1.2, h2.1.2, h2.2⟩
  · intro t ht
    rw [trendRows, List.mem_filter] at ht
    have h2 := ht.2
    simp only [Bool.and_eq_true, beq_iff_eq, decide_eq_true_eq] at h2
    exact h2.1.1
  · intro k i e hmem
    rw [getMonthlyTrends] at hmem
    have h := (mem_map_graph _ (fun a =>
      ((((trendRows db u now months).filter
          fun t => monthKeyOf t.date == a).map fun t =>
          if t.type == TxType.income then t.amount else 0).sum,
       (((trendRows db u now months).filter
          fun t => monthKeyOf t.date == a).map fun t =>
          if t.type == TxType.expense then t.amount else 0).sum))
      k (i, e)).mp hmem
    rcases h with ⟨hk, hv⟩
    rw [Prod.ext_iff] at hv
    dsimp at hv
    constructor
    · rw [hv.1, sum_map_ite, List.filter_filter]
    · rw [hv.2, sum_map_ite, List.filter_filter]
  · rw [getMonthlyTrends, List.map_map]
    rw [show ((fun r : ℤ × ℚ × ℚ => r.2.1 + r.2.2) ∘ fun k =>
        (k,
         (((trendRows db u now months).filter
            fun t => monthKeyOf t.date == k).map fun t =>
            if t.type == TxType.income then t.amount else 0).sum,
         (((trendRows db u now months).filter
            fun t => monthKeyOf t.date == k).map fun t =>
            if t.type == TxType.expense then t.amount else 0).sum)) =
      fun k =>
        (((trendRows db u now months).filter
            fun t => monthKeyOf t.date == k).map fun t =>
            if t.type == TxType.income then t.amount else 0).sum +
        (((trendRows db u now months).filter
            fun t => monthKeyOf t.date == k).map fun t =>
            if t.type == TxType.expense then t.amount else 0).sum from rfl]
    rw [List.map_congr_left fun k _ => sum_ite_income_add_expense
      ((trendRows db u now months).filter fun t => monthKeyOf t.date == k)]
    exact sum_fibers (fun t => monthKeyOf t.date) _ _
      (nodup_sortAsc _ (List.nodup_dedup _))
      (fun r hr => (mem_sortAsc _ _).mpr
        (List.mem_dedup.mpr (List.mem_map.mpr ⟨r, hr, rfl⟩)))

/-- C6 witness: on `dbW` the category `Food` appears in the
spending-by-category result paired with the sum of its filtered rows. -/
theorem c6_aggregation_scope_witness :
    ("Food",
      (((spendRows dbW 1 10 2025).filter fun t => t.category == "Food").map
        fun t => t.amount).sum) ∈ getSpendingByCategory dbW 1 10 2025 := by
  refine ((c6_aggregation_scope dbW 1 10 2025 0 0).1 "Food" _).mpr
    ⟨⟨{ id := 10, userId := 1, amount := 850, description := "groceries"
        category := "Food", type := TxType.expense
        date := jsDateSec 2025 9 10 12 0 0 }, ?_, rfl⟩, rfl⟩
  exact List.mem_filter.mpr ⟨List.Mem.head _, by decide⟩

/-! ## C8 — the trends window is day-aligned, not calendar-aligned -/

/-- C8 counterexample: with `monthsBack = 6` and now = 2026-10-11 12:00, the
window `[setMonth(now, getMonth() - 6), now]` runs from 2026-04-11 and the
result contains seven distinct month keys, 2026-04 through 2026-10 — no set
of six calendar months contains them all, so the result does not cover
"exactly the last 6 calendar months". -/
theorem c8_counterexample :
    ((getMonthlyTrends dbT8 1 now8 6).map fun r => r.1) =
      [202604, 202605, 202606, 202607, 202608, 202609, 202610] ∧
    (getMonthlyTrends dbT8 1 now8 6).length = 7 := by
  constructor
  · decide
  · decide

/-- C8 (amended): `getMonthlyTrends(monthsBack)` aggregates exactly the
user's transactions dated in the day-aligned window
`[setMonth(now, getMonth(now) - monthsBack), now]` — the start keeps the
current day-of-month and time, so the window can touch `monthsBack + 1`
calendar-month labels — and returns its buckets ordered strictly ascending
by the `YYYY-MM` month key, omitting every month with no transactions (each
returned key has at least one aggregated row, and every aggregated row's key
is returned). -/
theorem c8_trends_window (db : DB) (u : Nat) (now months : ℤ) :
    ((getMonthlyTrends db u now months).map fun r => r.1).Pairwise
      (· < ·) ∧
    (∀ t ∈ db.transactions,
      (t ∈ trendRows db u now months ↔
        t.userId = u ∧ jsSetMonth now (nowMonth now - 1 - months) ≤ t.date ∧
        t.date ≤ now)) ∧
    (∀ (k : ℤ) (i e : ℚ), (k, i, e) ∈ getMonthlyTrends db u now months →
      ∃ t ∈ trendRows db u now months, monthKeyOf t.date = k) ∧
    (∀ t ∈ trendRows db u now months,
      monthKeyOf t.date ∈ (getMonthlyTrends db u now months).map
        fun r => r.1) := by
  have hkeys : ((getMonthlyTrends db u now months).map fun r => r.1) =
      sortAsc (((trendRows db u now months).map
        fun t => monthKeyOf t.date).dedup) := by
    rw [getMonthlyTrends, List.map_map]
    exact List.map_id _
  refine ⟨?_, ?_, ?_, ?_⟩
  · rw [hkeys]
    exact pairwise_lt_sortAsc _ (List.nodup_dedup _)
  · intro t ht
    rw [trendRows, List.mem_filter]
    simp [ht, and_assoc]
  · intro k i e hmem
    rw [getMonthlyTrends] at hmem
    have h := (mem_map_graph _ (fun a =>
      ((((trendRows db u now months).filter
          fun t => monthKeyOf t.date == a).map fun t =>
          if t.type == TxType.income then t.amount else 0).sum,
       (((trendRows db u now months).filter
          fun t => monthKeyOf t.date == a).map fun t =>
          if t.type == TxType.expense then t.amount else 0).sum))
      k (i, e)).mp hmem
    have hk := (mem_sortAsc _ _).mp h.1
    rw [List.mem_dedup, List.mem_map] at hk
    rcases hk with ⟨t, ht, hkey⟩
    exact ⟨t, ht, hkey⟩
  · intro t ht
    rw [hkeys]
    exact (mem_sortAsc _ _).mpr
      (List.mem_dedup.mpr (List.mem_map.mpr ⟨t, ht, rfl⟩))

/-- C8 witness: the 2026-04-20 transaction is inside the window that starts
2026-04-11, although 2026-04 is a seventh month label for `monthsBack = 6`. -/
theorem c8_trends_window_witness :
    trow8 1 3 20 ∈ trendRows dbT8 1 now8 6 := by
  exact ((c8_trends_window dbT8 1 now8 6).2.1 (trow8 1 3 20)
    (List.Mem.head _)).mpr ⟨rfl, by decide, by decide⟩
